import Mathlib

/-!
Shallow embedding of the device-management core of
`src/src/backend/cuda/platform.cpp` (ArrayFire CUDA backend), together with
theorems checking the natural-language specification against it.

Modelling conventions:
* C `int` fields are modelled as `Int`, `size_t` as `Nat`; the arithmetic in
  this file never relies on machine-width wraparound.
* CUDA driver/runtime calls are modelled by an `Env` record of oracles
  (device count, per-device properties, the outcome of `cudaSetDevice` and
  `cudaStreamCreate`).
* `cudaStream_t streams[MAX_DEVICES]` is modelled as a total function
  `Int → Bool` recording whether the slot holds a created stream
  (the handle's identity is irrelevant to the properties checked here).
* Out-of-bounds vector accesses (undefined behaviour in the C++ source) are
  modelled as a distinguished `none` / `oob` outcome.
* Thrown C++ exceptions (`CUDA_CHECK`, `runtime_error`) are modelled as
  explicit `thrown` results carrying the object state at the throw point.
-/

namespace cuda

/-- The fields of `cudaDeviceProp` that `platform.cpp` reads. -/
structure CudaProp where
  name : String
  major : Int
  minor : Int
  totalGlobalMem : Nat
  multiProcessorCount : Int
  clockRate : Int
  deriving DecidableEq, Repr

/-- Model of `cudaDevice_t`: a device descriptor snapshot (properties, derived
throughput score `flops`, and the native id assigned at enumeration). -/
structure CudaDevice where
  prop : CudaProp
  flops : Int
  nativeId : Int
  deriving DecidableEq, Repr

/-- The table inside `compute2cores`, keyed by `(major << 4) + minor`. -/
def gpusTable : List (Int × Int) :=
  [(0x10, 8), (0x11, 8), (0x12, 8), (0x13, 8),
   (0x20, 32), (0x21, 48),
   (0x30, 192), (0x32, 192), (0x35, 192), (0x37, 192),
   (0x50, 128), (0x52, 128), (0x53, 128),
   (0x60, 128), (0x61, 64), (0x62, 128)]

/-- Model of `compute2cores(major, minor)`: first table entry whose key matches
`(major << 4) + minor`, else 0. -/
def compute2cores (major minor : Int) : Int :=
  match gpusTable.find? (fun g => g.1 == major * 16 + minor) with
  | some g => g.2
  | none => 0

/-- Model of `card_compare_compute`: COMPARE major, minor, flops, totalGlobalMem,
nativeId; true iff the left card is strictly greater in that chain. -/
def card_compare_compute (l r : CudaDevice) : Bool :=
  if l.prop.major > r.prop.major then true
  else if l.prop.major < r.prop.major then false
  else if l.prop.minor > r.prop.minor then true
  else if l.prop.minor < r.prop.minor then false
  else if l.flops > r.flops then true
  else if l.flops < r.flops then false
  else if l.prop.totalGlobalMem > r.prop.totalGlobalMem then true
  else if l.prop.totalGlobalMem < r.prop.totalGlobalMem then false
  else if l.nativeId > r.nativeId then true
  else if l.nativeId < r.nativeId then false
  else false

/-- Model of `card_compare_flops`: COMPARE flops, totalGlobalMem, major, minor,
nativeId. -/
def card_compare_flops (l r : CudaDevice) : Bool :=
  if l.flops > r.flops then true
  else if l.flops < r.flops then false
  else if l.prop.totalGlobalMem > r.prop.totalGlobalMem then true
  else if l.prop.totalGlobalMem < r.prop.totalGlobalMem then false
  else if l.prop.major > r.prop.major then true
  else if l.prop.major < r.prop.major then false
  else if l.prop.minor > r.prop.minor then true
  else if l.prop.minor < r.prop.minor then false
  else if l.nativeId > r.nativeId then true
  else if l.nativeId < r.nativeId then false
  else false

/-- Model of `card_compare_mem`: COMPARE totalGlobalMem, flops, major, minor,
nativeId. -/
def card_compare_mem (l r : CudaDevice) : Bool :=
  if l.prop.totalGlobalMem > r.prop.totalGlobalMem then true
  else if l.prop.totalGlobalMem < r.prop.totalGlobalMem then false
  else if l.flops > r.flops then true
  else if l.flops < r.flops then false
  else if l.prop.major > r.prop.major then true
  else if l.prop.major < r.prop.major then false
  else if l.prop.minor > r.prop.minor then true
  else if l.prop.minor < r.prop.minor then false
  else if l.nativeId > r.nativeId then true
  else if l.nativeId < r.nativeId then false
  else false

/-- Model of `card_compare_num`: COMPARE nativeId only. -/
def card_compare_num (l r : CudaDevice) : Bool :=
  if l.nativeId > r.nativeId then true
  else if l.nativeId < r.nativeId then false
  else false

/-- The `sort_mode` enumeration (constructor names as used in the
`switch` of `DeviceManager::sortDevices`). -/
inductive SortMode where
  | memory
  | flops
  | compute
  | none
  deriving DecidableEq, Repr

/-- Model of `DeviceManager::sortDevices`: `std::stable_sort` with the comparator
selected by `mode`.  `std::stable_sort` with a strict "greater" comparator
`comp` produces the unique stable order in which no later element is
`comp`-greater than an earlier one; `List.mergeSort` with
`le a b := !(comp b a)` produces exactly that order. -/
def sortDevices (mode : SortMode) (l : List CudaDevice) : List CudaDevice :=
  match mode with
  | .memory => l.mergeSort (fun a b => ! card_compare_mem b a)
  | .flops => l.mergeSort (fun a b => ! card_compare_flops b a)
  | .compute => l.mergeSort (fun a b => ! card_compare_compute b a)
  | .none => l.mergeSort (fun a b => ! card_compare_num b a)

/-- Outcome classes of the CUDA runtime calls used here.
`devicesUnavailable` is `cudaErrorDevicesUnavailable`; `other` covers every
remaining error code. -/
inductive CudaError where
  | success
  | devicesUnavailable
  | other (code : Nat)
  deriving DecidableEq, Repr

/-- The mutable state of the `DeviceManager` singleton, plus the
function-local `static bool first` latch of `setActiveDevice` (it is
process-wide state, so it lives in the same record). -/
structure DeviceManager where
  cuDevices : List CudaDevice
  activeDev : Int
  nDevices : Int
  streams : Int → Bool
  first : Bool

/-- Oracle for the CUDA platform: device count, per-(native id) properties,
the parsed `AF_CUDA_DEFAULT_DEVICE` environment variable (`none`: unset or
empty; `some none`: set but unparseable, leaving `def_device = -1`;
`some (some k)`: parses as `k`), the outcome of `cudaSetDevice` per native
id, and the outcome of `cudaStreamCreate` per logical slot (each creation
is issued right after `cudaSetDevice` of that slot's native id). -/
structure Env where
  deviceCount : Nat
  props : Nat → CudaProp
  deviceEnvVar : Option (Option Int)
  setDevice : Int → CudaError
  streamCreate : Int → CudaError

/-- Model of `getDeviceNativeId(device)`: `cuDevices[device].nativeId` when
`device < cuDevices.size()`, else -1.  A negative `device` passes the
check and reads out of bounds: modelled as `none`. -/
def getDeviceNativeId (st : DeviceManager) (device : Int) : Option Int :=
  if device < (st.cuDevices.length : Int) then
    if 0 ≤ device then (st.cuDevices.get? device.toNat).map (fun d => d.nativeId)
    else none
  else some (-1)

/-- The scan loop of `getDeviceIdFromNativeId`: walk `devId` upward while
`devId < nDevices`, stopping at the first descriptor whose `nativeId`
matches; if the loop bound exceeds the vector size the source reads out of
bounds (`none`). -/
def nativeIdScan (st : DeviceManager) (nid : Int) (devId : Int) : Option Int :=
  if _h : devId < st.nDevices then
    match st.cuDevices.get? devId.toNat with
    | Option.none => none
    | some d => if d.nativeId == nid then some devId else nativeIdScan st nid (devId + 1)
  else some devId
termination_by (st.nDevices - devId).toNat
decreasing_by
  omega

/-- Model of `getDeviceIdFromNativeId(nativeId)`: linear scan from 0; returns
`nDevices` when no descriptor matches. -/
def getDeviceIdFromNativeId (st : DeviceManager) (nid : Int) : Option Int :=
  nativeIdScan st nid 0

/-- Model of `getDeviceProp(device)`: `cuDevices[device].prop` when
`device < cuDevices.size()`, else `cuDevices[0].prop`.  A negative index
passes the check and reads out of bounds (`none`); an empty vector makes
the fallback read out of bounds as well. -/
def getDeviceProp (st : DeviceManager) (device : Int) : Option CudaProp :=
  if device < (st.cuDevices.length : Int) then
    if 0 ≤ device then (st.cuDevices.get? device.toNat).map (fun d => d.prop)
    else none
  else (st.cuDevices.get? 0).map (fun d => d.prop)

/-- Model of `getDeviceInfo(device)`: one formatted line per device. -/
def getDeviceInfo (st : DeviceManager) (device : Int) : Option String :=
  (getDeviceProp st device).map (fun dev =>
    let mem_gpu_total := dev.totalGlobalMem
    let show_braces := st.activeDev == device
    let id := (if show_braces then "[" else "-") ++ toString device ++
              (if show_braces then "]" else "-")
    let name := dev.name
    let memory := toString (mem_gpu_total / (1024 * 1024) +
                    (if mem_gpu_total % (1024 * 1024) == 0 then 0 else 1)) ++ " MB"
    let compute := "CUDA Compute " ++ toString dev.major ++ "." ++ toString dev.minor
    id ++ " " ++ name ++ ", " ++ memory ++ ", " ++ compute ++ "\n")

/-- Result of `DeviceManager::setActiveDevice`: a normal `int` return
(`ret`), a thrown exception with the state at the throw point (`thrown`),
or undefined behaviour from an out-of-bounds access (`oob`). -/
inductive SetDevResult where
  | ret (value : Int) (st : DeviceManager)
  | thrown (e : CudaError) (st : DeviceManager)
  | oob

/-- The `while(true)` fallback scan at the end of `setActiveDevice`,
entered with the latch just cleared.  At the loop head: a non-unavailable
error is passed to `CUDA_CHECK` (success falls through to
`activeDev = device; return old`, an error throws); otherwise the scan
advances to the next logical index, breaking out (and throwing the
unavailable error) when the index range is exhausted. -/
def fallbackLoop (env : Env) (numDevices old : Int) (device : Int)
    (err : CudaError) (st : DeviceManager) : SetDevResult :=
  if _h : err = CudaError.devicesUnavailable then
    let device1 := device + 1
    if _h2 : device1 ≥ numDevices then .thrown err st
    else
      if _h3 : 0 ≤ device1 then
        match st.cuDevices.get? device1.toNat with
        | Option.none => .oob
        | some d =>
          match env.setDevice d.nativeId with
          | .success =>
            let err2 := env.streamCreate device1
            let streams1 := fun j =>
              if j == device1 then (decide (err2 = CudaError.success) || st.streams j)
              else st.streams j
            fallbackLoop env numDevices old device1 err2 { st with streams := streams1 }
          | e => .thrown e st
      else .oob
  else
    if err = CudaError.success then .ret old { st with activeDev := device }
    else .thrown err st
termination_by (numDevices - device).toNat
decreasing_by
  omega

/-- Model of `DeviceManager::setActiveDevice(device, nId)` (`nId` defaults to -1 at
the call sites). -/
def setActiveDevice (env : Env) (st : DeviceManager) (device : Int)
    (nId : Int) : SetDevResult :=
  let numDevices : Int := st.cuDevices.length
  if device > numDevices then .ret (-1) st
  else
    let old := st.activeDev
    match (if nId == -1 then getDeviceNativeId st device else some nId) with
    | Option.none => .oob
    | some nid =>
      match env.setDevice nid with
      | .success =>
        let hadStream := st.streams device
        let err := if hadStream then CudaError.success else env.streamCreate device
        let created := !hadStream && decide (err = CudaError.success)
        let streams1 := fun j =>
          if j == device then (hadStream || created) else st.streams j
        let st1 := { st with streams := streams1, activeDev := device }
        if err = CudaError.success then .ret old st1
        else if !st.first then .thrown err st1
        else fallbackLoop env numDevices old device err { st1 with first := false }
      | e => .thrown e st

/-- Result of `cuda::getStream`. -/
inductive StreamResult where
  | ret (streamExists : Bool) (st : DeviceManager)
  | thrown (e : CudaError) (st : DeviceManager)
  | oob

/-- Model of `cuda::getStream(device)`: return the cached stream; if the slot is
still null, activate `device` (which creates the stream), re-read the
slot, and restore the previously active device. -/
def getStream (env : Env) (st : DeviceManager) (device : Int) : StreamResult :=
  let str := st.streams device
  if !str then
    let active_dev := st.activeDev
    match setActiveDevice env st device (-1) with
    | .ret _ st1 =>
      let str1 := st1.streams device
      match setActiveDevice env st1 active_dev (-1) with
      | .ret _ st2 => .ret str1 st2
      | .thrown e s => .thrown e s
      | .oob => .oob
    | .thrown e s => .thrown e s
    | .oob => .oob
  else .ret str st

/-- Result of running the `DeviceManager` constructor: the constructed
state plus whether the out-of-range-override warning was printed, a thrown
exception, or undefined behaviour. -/
inductive CtorResult where
  | ok (st : DeviceManager) (warned : Bool)
  | thrown (e : CudaError)
  | noDevices
  | oob

/-- Descriptor enumeration in the `DeviceManager` constructor: for each
native id `i`, snapshot the properties and compute
`flops = multiProcessorCount * compute2cores(major, minor) * clockRate`. -/
def enumerateDevices (env : Env) : List CudaDevice :=
  (List.range env.deviceCount).map (fun i =>
    { prop := env.props i
      flops := (env.props i).multiProcessorCount *
               compute2cores (env.props i).major (env.props i).minor *
               (env.props i).clockRate
      nativeId := (i : Int) })

/-- Reading `cuDevices[k].nativeId` for the constructor's activation calls; the
index is in range at every call site (proved in the lemmas below), so the
-1 default of this accessor is never reached there. -/
def nativeIdAt (l : List CudaDevice) (k : Nat) : Int :=
  ((l.get? k).map (fun d => d.nativeId)).getD (-1)

/-- Wrap the result of the constructor's `setActiveDevice` call: the `int`
return value is discarded, a thrown exception propagates out of the
constructor. -/
def finishCtor (warned : Bool) (r : SetDevResult) : CtorResult :=
  match r with
  | .ret _ st => .ok st warned
  | .thrown e _ => .thrown e
  | .oob => .oob

/-- The `DeviceManager` constructor.  `mode` is the `sort_mode` used by the
plain `sortDevices()` call (its default argument lives in the missing
header `platform.hpp`; the spec says the construction-time ranking is the
compute-capability one, and every theorem below quantifies over `mode`). -/
def mkDeviceManager (env : Env) (mode : SortMode) : CtorResult :=
  let n := env.deviceCount
  if n = 0 then .noDevices
  else
    let sorted := sortDevices mode (enumerateDevices env)
    let st0 : DeviceManager :=
      { cuDevices := sorted
        activeDev := 0
        nDevices := (n : Int)
        streams := fun _ => false
        first := true }
    match env.deviceEnvVar with
    | Option.none => finishCtor false (setActiveDevice env st0 0 (nativeIdAt sorted 0))
    | some parsed =>
      let def_device := parsed.getD (-1)
      if def_device < 0 ∨ def_device ≥ (n : Int) then
        finishCtor true (setActiveDevice env st0 0 (nativeIdAt sorted 0))
      else
        finishCtor false (setActiveDevice env st0 def_device (nativeIdAt sorted def_device.toNat))

/-! ### Concrete registries, environments and projections used by the witnesses and counterexamples -/

/-- Device A of the ranking scenario: less memory, more throughput. -/
def exA : CudaDevice := ⟨⟨"A", 6, 1, 1024, 2, 3⟩, 100, 0⟩

/-- Device B of the ranking scenario: more memory, less throughput. -/
def exB : CudaDevice := ⟨⟨"B", 5, 0, 4096, 1, 1⟩, 50, 1⟩

/-- Concrete registry for the C3 witness: two devices whose native ids
differ from their logical indices. -/
def exStC3 : DeviceManager :=
  { cuDevices := [⟨⟨"a", 3, 0, 256, 1, 1⟩, 7, 1⟩, ⟨⟨"b", 2, 0, 512, 1, 1⟩, 5, 0⟩]
    activeDev := 0
    nDevices := 2
    streams := fun _ => false
    first := true }

/-- The descriptor list held by a successfully constructed registry
(empty for the failure outcomes). -/
def ctorDevices : CtorResult → List CudaDevice
  | .ok st _ => st.cuDevices
  | _ => []

/-- Environment of the single-device witness scenarios: one 6.1 device,
no environment override, every CUDA call succeeds. -/
def exEnvC4 : Env :=
  { deviceCount := 1
    props := fun _ => ⟨"GeForce", 6, 1, 2097153, 20, 100⟩
    deviceEnvVar := Option.none
    setDevice := fun _ => CudaError.success
    streamCreate := fun _ => CudaError.success }

/-- The descriptor the constructor builds for `exEnvC4`:
`flops = 20 * 64 * 100`. -/
def exDevC4 : CudaDevice := ⟨⟨"GeForce", 6, 1, 2097153, 20, 100⟩, 128000, 0⟩

/-- A two-device registry in the steady state. -/
def exStC2 : DeviceManager :=
  { cuDevices := [⟨⟨"a", 3, 0, 256, 1, 1⟩, 3, 0⟩, ⟨⟨"b", 2, 0, 512, 1, 1⟩, 2, 1⟩]
    activeDev := 0
    nDevices := 2
    streams := fun _ => false
    first := false }

/-- Environment in which `cudaSetDevice(-1)` fails (invalid device
ordinal) and everything else succeeds. -/
def exEnvC2 : Env :=
  { deviceCount := 2
    props := fun _ => ⟨"a", 3, 0, 256, 1, 1⟩
    deviceEnvVar := Option.none
    setDevice := fun n => if n == -1 then CudaError.other 101 else CudaError.success
    streamCreate := fun _ => CudaError.success }

/-- A one-device registry. -/
def exStC8 : DeviceManager :=
  { cuDevices := [⟨⟨"g", 6, 1, 1024, 1, 1⟩, 64, 0⟩]
    activeDev := 0
    nDevices := 1
    streams := fun _ => false
    first := false }

/-- A one-device registry holding a 6.1 card with a bit over 2 MB of
memory, device 0 active. -/
def exStC7 : DeviceManager :=
  { cuDevices := [⟨⟨"GeForce", 6, 1, 2097153, 20, 100⟩, 128000, 0⟩]
    activeDev := 0
    nDevices := 1
    streams := fun j => j == 0
    first := false }

/-- Two-device registry in the steady state (latch cleared), device 0
active with its queue created. -/
def exStC9 : DeviceManager :=
  { cuDevices := [⟨⟨"a", 3, 0, 256, 1, 1⟩, 3, 0⟩, ⟨⟨"b", 2, 0, 512, 1, 1⟩, 2, 1⟩]
    activeDev := 0
    nDevices := 2
    streams := fun j => j == 0
    first := false }

/-- Environment in which queue creation fails for logical device 1 only. -/
def exEnvC9 : Env :=
  { deviceCount := 2
    props := fun _ => ⟨"a", 3, 0, 256, 1, 1⟩
    deviceEnvVar := Option.none
    setDevice := fun _ => CudaError.success
    streamCreate := fun j => if j == 1 then CudaError.other 5 else CudaError.success }

/-- Two-device registry still in the bootstrap state (latch set), device 0
active, no queue created yet for device 1. -/
def exStC1a : DeviceManager :=
  { cuDevices := [⟨⟨"a", 3, 0, 256, 1, 1⟩, 3, 0⟩, ⟨⟨"b", 2, 0, 512, 1, 1⟩, 2, 1⟩]
    activeDev := 0
    nDevices := 2
    streams := fun _ => false
    first := true }

/-- Environment in which every CUDA call succeeds (two devices). -/
def exEnvC1w : Env :=
  { deviceCount := 2
    props := fun _ => ⟨"a", 3, 0, 256, 1, 1⟩
    deviceEnvVar := Option.none
    setDevice := fun _ => CudaError.success
    streamCreate := fun _ => CudaError.success }

/-- Active index of a normally returning `setActiveDevice` call. -/
def sdActive : SetDevResult → Option Int
  | .ret _ st => some st.activeDev
  | _ => Option.none

/-- Return value of a normally returning `setActiveDevice` call. -/
def sdRetValue : SetDevResult → Option Int
  | .ret v _ => some v
  | _ => Option.none

/-- Three devices (enumeration order is already the compute-capability
order), every context switch succeeds, but queue creation fails with
`cudaErrorDevicesUnavailable` for logical device 1 only. -/
def exEnvC1 : Env :=
  { deviceCount := 3
    props := fun i => ⟨"d", 9 - (i : Int), 0, 1024, 1, 1⟩
    deviceEnvVar := Option.none
    setDevice := fun _ => CudaError.success
    streamCreate := fun j =>
      if j == 1 then CudaError.devicesUnavailable else CudaError.success }

/-- The state the registry constructor reaches under `exEnvC1`: device 0
activated successfully, latch still set. -/
def exStC1 : DeviceManager :=
  { cuDevices := enumerateDevices exEnvC1
    activeDev := 0
    nDevices := 3
    streams := fun j => if j == 0 then true else false
    first := true }

/-- A single device with an override naming index 1 — equal to the device
count, hence out of range. -/
def exEnvC6 : Env :=
  { deviceCount := 1
    props := fun _ => ⟨"g", 6, 1, 1024, 1, 1⟩
    deviceEnvVar := some (some 1)
    setDevice := fun _ => CudaError.success
    streamCreate := fun _ => CudaError.success }

/-- Two-device registry, device 0 active with a queue, device 1 without. -/
def exStC10 : DeviceManager :=
  { cuDevices := [⟨⟨"a", 3, 0, 256, 1, 1⟩, 3, 0⟩, ⟨⟨"b", 2, 0, 512, 1, 1⟩, 2, 1⟩]
    activeDev := 0
    nDevices := 2
    streams := fun j => j == 0
    first := false }

/-! ### Helper lemmas about the comparison chains -/

set_option maxHeartbeats 2000000 in
theorem card_compare_compute_iff (l r : CudaDevice) : card_compare_compute l r = true ↔
    (r.prop.major < l.prop.major ∨ (l.prop.major = r.prop.major ∧
      (r.prop.minor < l.prop.minor ∨ (l.prop.minor = r.prop.minor ∧
        (r.flops < l.flops ∨ (l.flops = r.flops ∧
          (r.prop.totalGlobalMem < l.prop.totalGlobalMem ∨
            (l.prop.totalGlobalMem = r.prop.totalGlobalMem ∧
              r.nativeId < l.nativeId)))))))) := by
  simp only [card_compare_compute]
  split_ifs <;> simp only [true_iff, false_iff, not_or, not_and, not_lt] <;> omega

set_option maxHeartbeats 2000000 in
theorem card_compare_flops_iff (l r : CudaDevice) : card_compare_flops l r = true ↔
    (r.flops < l.flops ∨ (l.flops = r.flops ∧
      (r.prop.totalGlobalMem < l.prop.totalGlobalMem ∨
        (l.prop.totalGlobalMem = r.prop.totalGlobalMem ∧
          (r.prop.major < l.prop.major ∨ (l.prop.major = r.prop.major ∧
            (r.prop.minor < l.prop.minor ∨ (l.prop.minor = r.prop.minor ∧
              r.nativeId < l.nativeId)))))))) := by
  simp only [card_compare_flops]
  split_ifs <;> simp only [true_iff, false_iff, not_or, not_and, not_lt] <;> omega

set_option maxHeartbeats 2000000 in
theorem card_compare_mem_iff (l r : CudaDevice) : card_compare_mem l r = true ↔
    (r.prop.totalGlobalMem < l.prop.totalGlobalMem ∨
      (l.prop.totalGlobalMem = r.prop.totalGlobalMem ∧
        (r.flops < l.flops ∨ (l.flops = r.flops ∧
          (r.prop.major < l.prop.major ∨ (l.prop.major = r.prop.major ∧
            (r.prop.minor < l.prop.minor ∨ (l.prop.minor = r.prop.minor ∧
              r.nativeId < l.nativeId)))))))) := by
  simp only [card_compare_mem]
  split_ifs <;> simp only [true_iff, false_iff, not_or, not_and, not_lt] <;> omega

theorem card_compare_num_iff (l r : CudaDevice) : card_compare_num l r = true ↔
    r.nativeId < l.nativeId := by
  simp only [card_compare_num]
  split_ifs <;> simp only [true_iff, false_iff, not_or, not_and, not_lt] <;> omega

theorem leCompute_total (a b : CudaDevice) :
    (! card_compare_compute b a) || (! card_compare_compute a b) := by
  rw [Bool.or_eq_true, Bool.not_eq_true', Bool.not_eq_true',
    ← Bool.not_eq_true (card_compare_compute b a),
    ← Bool.not_eq_true (card_compare_compute a b),
    card_compare_compute_iff, card_compare_compute_iff]
  omega

theorem leCompute_trans (a b c : CudaDevice) :
    (! card_compare_compute b a) → (! card_compare_compute c b) →
    (! card_compare_compute c a) := by
  simp only [Bool.not_eq_true', ← Bool.not_eq_true, card_compare_compute_iff]
  omega

theorem leFlops_total (a b : CudaDevice) :
    (! card_compare_flops b a) || (! card_compare_flops a b) := by
  rw [Bool.or_eq_true, Bool.not_eq_true', Bool.not_eq_true',
    ← Bool.not_eq_true (card_compare_flops b a),
    ← Bool.not_eq_true (card_compare_flops a b),
    card_compare_flops_iff, card_compare_flops_iff]
  omega

theorem leFlops_trans (a b c : CudaDevice) :
    (! card_compare_flops b a) → (! card_compare_flops c b) →
    (! card_compare_flops c a) := by
  simp only [Bool.not_eq_true', ← Bool.not_eq_true, card_compare_flops_iff]
  omega

theorem leMem_total (a b : CudaDevice) :
    (! card_compare_mem b a) || (! card_compare_mem a b) := by
  rw [Bool.or_eq_true, Bool.not_eq_true', Bool.not_eq_true',
    ← Bool.not_eq_true (card_compare_mem b a),
    ← Bool.not_eq_true (card_compare_mem a b),
    card_compare_mem_iff, card_compare_mem_iff]
  omega

theorem leMem_trans (a b c : CudaDevice) :
    (! card_compare_mem b a) → (! card_compare_mem c b) →
    (! card_compare_mem c a) := by
  simp only [Bool.not_eq_true', ← Bool.not_eq_true, card_compare_mem_iff]
  omega

theorem leNum_total (a b : CudaDevice) :
    (! card_compare_num b a) || (! card_compare_num a b) := by
  rw [Bool.or_eq_true, Bool.not_eq_true', Bool.not_eq_true',
    ← Bool.not_eq_true (card_compare_num b a),
    ← Bool.not_eq_true (card_compare_num a b),
    card_compare_num_iff, card_compare_num_iff]
  omega

theorem leNum_trans (a b c : CudaDevice) :
    (! card_compare_num b a) → (! card_compare_num c b) →
    (! card_compare_num c a) := by
  simp only [Bool.not_eq_true', ← Bool.not_eq_true, card_compare_num_iff]
  omega

/-- A permutation of a two-element list is one of the two arrangements. -/
theorem pair_perm {α} {l : List α} {a b : α} (h : l.Perm [a, b]) :
    l = [a, b] ∨ l = [b, a] := by
  match l, h.length_eq with
  | [x, y], _ =>
    have hx : x ∈ [a, b] := h.mem_iff.mp (by simp)
    rcases List.mem_pair.mp hx with rfl | rfl
    · have h1 : [y].Perm [b] := (List.perm_cons x).mp h
      left
      rw [List.singleton_perm_singleton.mp h1]
    · have h2 : [x, y].Perm [x, a] := h.trans (List.Perm.swap x a [])
      have h1 : [y].Perm [a] := (List.perm_cons x).mp h2
      right
      rw [List.singleton_perm_singleton.mp h1]

/-- A stable sort of a two-element list whose comparator strictly
distinguishes the pair puts it in the sorted order, from either input
order. -/
theorem mergeSort_pair_strict {α} (le : α → α → Bool)
    (trans : ∀ a b c, le a b → le b c → le a c)
    (total : ∀ a b, le a b || le b a)
    {x y : α} (h : le x y = false) :
    [x, y].mergeSort le = [y, x] ∧ [y, x].mergeSort le = [y, x] := by
  constructor
  · rcases pair_perm (List.mergeSort_perm [x, y] le) with heq | heq
    · have hs := List.sorted_mergeSort trans total [x, y]
      rw [heq] at hs
      simp only [List.pairwise_cons] at hs
      have := hs.1 y (by simp)
      rw [h] at this
      cases this
    · exact heq
  · rcases pair_perm (List.mergeSort_perm [y, x] le) with heq | heq
    · exact heq
    · have hs := List.sorted_mergeSort trans total [y, x]
      rw [heq] at hs
      simp only [List.pairwise_cons] at hs
      have := hs.1 y (by simp)
      rw [h] at this
      cases this

/-- C5: each of the four ranking policies yields a stable total order:
applying the same policy twice produces an identical order; under
throughput order the tie-break chain places equal-throughput devices with
the larger total memory first; and for devices A (less memory, more
throughput) and B, memory order places B before A while throughput order
places A before B, from either input order. -/
theorem C5_ranking_policies :
    (∀ (mode : SortMode) (l : List CudaDevice),
        sortDevices mode (sortDevices mode l) = sortDevices mode l)
    ∧ (∀ l : List CudaDevice, (sortDevices SortMode.flops l).Pairwise
        (fun a b => b.flops ≤ a.flops ∧
          (a.flops = b.flops → b.prop.totalGlobalMem ≤ a.prop.totalGlobalMem)))
    ∧ (∀ a b : CudaDevice,
        a.prop.totalGlobalMem < b.prop.totalGlobalMem → b.flops < a.flops →
        sortDevices SortMode.memory [a, b] = [b, a] ∧
        sortDevices SortMode.memory [b, a] = [b, a] ∧
        sortDevices SortMode.flops [a, b] = [a, b] ∧
        sortDevices SortMode.flops [b, a] = [a, b]) := by
  refine ⟨?_, ?_, ?_⟩
  · intro mode l
    cases mode <;> simp only [sortDevices] <;>
      exact List.mergeSort_of_sorted (List.sorted_mergeSort
        (by intro a b c hab hbc; first
              | exact leMem_trans a b c hab hbc
              | exact leFlops_trans a b c hab hbc
              | exact leCompute_trans a b c hab hbc
              | exact leNum_trans a b c hab hbc)
        (by intro a b; first
              | exact leMem_total a b
              | exact leFlops_total a b
              | exact leCompute_total a b
              | exact leNum_total a b) l)
  · intro l
    have hs := List.sorted_mergeSort
      (fun a b c hab hbc => leFlops_trans a b c hab hbc)
      (fun a b => leFlops_total a b) l
    simp only [sortDevices]
    refine hs.imp ?_
    intro a b hab
    have h2 : ¬ card_compare_flops b a = true := by
      simp only [Bool.not_eq_true'] at hab
      simp [hab]
    rw [card_compare_flops_iff] at h2
    omega
  · intro a b hmem hflops
    have hm0 : card_compare_mem b a = true := by
      rw [card_compare_mem_iff]
      omega
    have hf0 : card_compare_flops a b = true := by
      rw [card_compare_flops_iff]
      omega
    have hm : (fun x y : CudaDevice => ! card_compare_mem y x) a b = false := by
      show (! card_compare_mem b a) = false
      rw [hm0]
      rfl
    have hf : (fun x y : CudaDevice => ! card_compare_flops y x) b a = false := by
      show (! card_compare_flops a b) = false
      rw [hf0]
      rfl
    have h1 := mergeSort_pair_strict (fun x y : CudaDevice => ! card_compare_mem y x)
      (fun x y z hxy hyz => leMem_trans x y z hxy hyz)
      (fun x y => leMem_total x y) hm
    have h2 := mergeSort_pair_strict (fun x y : CudaDevice => ! card_compare_flops y x)
      (fun x y z hxy hyz => leFlops_trans x y z hxy hyz)
      (fun x y => leFlops_total x y) hf
    exact ⟨h1.1, h1.2, h2.2, h2.1⟩

/-- Witness for C5 at a concrete pair of devices. -/
theorem C5_ranking_policies_witness :
    sortDevices SortMode.memory (sortDevices SortMode.memory [exA, exB]) =
      sortDevices SortMode.memory [exA, exB] ∧
    exA.prop.totalGlobalMem < exB.prop.totalGlobalMem ∧
    exB.flops < exA.flops ∧
    sortDevices SortMode.memory [exA, exB] = [exB, exA] ∧
    sortDevices SortMode.flops [exA, exB] = [exA, exB] :=
  ⟨C5_ranking_policies.1 SortMode.memory [exA, exB], by decide, by decide,
   (C5_ranking_policies.2.2 exA exB (by decide) (by decide)).1,
   (C5_ranking_policies.2.2 exA exB (by decide) (by decide)).2.2.1⟩

/-! ### C3: round-trip of the bidirectional lookup -/

/-- If some descriptor at position `≥ k` carries `nid`, the scan started at
`k` stops at a position whose descriptor carries `nid`. -/
theorem nativeIdScan_finds (st : DeviceManager) (nid : Int)
    (wf : st.nDevices = (st.cuDevices.length : Int)) (k : Int) (hk : 0 ≤ k)
    (hex : ∃ m : Nat, k ≤ (m : Int) ∧
      ∃ d, st.cuDevices.get? m = some d ∧ d.nativeId = nid) :
    ∃ (j : Nat) (d : CudaDevice), nativeIdScan st nid k = some (j : Int) ∧
      st.cuDevices.get? j = some d ∧ d.nativeId = nid := by
  obtain ⟨m, hkm, dm, hdm, hnidm⟩ := hex
  obtain ⟨hmlen, hmg⟩ := List.get?_eq_some.mp hdm
  have hklen : k < st.nDevices := by omega
  have hkl : k.toNat < st.cuDevices.length := by omega
  rw [nativeIdScan, dif_pos hklen, List.get?_eq_get hkl]
  dsimp only
  by_cases hmatch : (st.cuDevices.get ⟨k.toNat, hkl⟩).nativeId = nid
  · refine ⟨k.toNat, st.cuDevices.get ⟨k.toNat, hkl⟩, ?_, List.get?_eq_get hkl, hmatch⟩
    have hbeq : ((st.cuDevices.get ⟨k.toNat, hkl⟩).nativeId == nid) = true :=
      beq_iff_eq.mpr hmatch
    rw [hbeq, if_pos rfl, Int.toNat_of_nonneg hk]
  · have hne : (m : Int) ≠ k := by
      intro he
      have hmk : m = k.toNat := by omega
      rw [hmk, List.get?_eq_get hkl] at hdm
      have hdg : st.cuDevices.get ⟨k.toNat, hkl⟩ = dm := (Option.some.injEq _ _).mp hdm
      rw [← hdg] at hnidm
      exact hmatch hnidm
    have hbeq : ((st.cuDevices.get ⟨k.toNat, hkl⟩).nativeId == nid) = false :=
      beq_eq_false_iff_ne.mpr hmatch
    rw [hbeq, if_neg Bool.false_ne_true]
    exact nativeIdScan_finds st nid wf (k + 1) (by omega) ⟨m, by omega, dm, hdm, hnidm⟩
termination_by (st.nDevices - k).toNat
decreasing_by
  omega

/-- C3: for every valid logical index `i`, the bidirectional lookup
round-trips: `getDeviceNativeId` of `getDeviceIdFromNativeId` of
`getDeviceNativeId i` equals `getDeviceNativeId i` (all three lookups
succeed, in particular no out-of-bounds access occurs). -/
theorem C3_nativeId_roundtrip (st : DeviceManager) (i : Int)
    (wf : st.nDevices = (st.cuDevices.length : Int))
    (h0 : 0 ≤ i) (hi : i < st.nDevices) :
    ∃ n j, getDeviceNativeId st i = some n ∧
      getDeviceIdFromNativeId st n = some j ∧
      getDeviceNativeId st j = some n := by
  have hil : i.toNat < st.cuDevices.length := by omega
  have hg := List.get?_eq_get hil
  refine ⟨(st.cuDevices.get ⟨i.toNat, hil⟩).nativeId, ?_⟩
  have h1 : getDeviceNativeId st i = some (st.cuDevices.get ⟨i.toNat, hil⟩).nativeId := by
    rw [getDeviceNativeId, if_pos (by omega), if_pos h0, hg]
    rfl
  obtain ⟨j, dj, hscan, hgj, hnj⟩ :=
    nativeIdScan_finds st (st.cuDevices.get ⟨i.toNat, hil⟩).nativeId wf 0 le_rfl
      ⟨i.toNat, by omega, st.cuDevices.get ⟨i.toNat, hil⟩, hg, rfl⟩
  obtain ⟨hjlen, hjg⟩ := List.get?_eq_some.mp hgj
  refine ⟨(j : Int), h1, hscan, ?_⟩
  rw [getDeviceNativeId, if_pos (by omega), if_pos (by omega)]
  have hjt : ((j : Int)).toNat = j := Int.toNat_natCast j
  rw [hjt, hgj]
  simp [hnj]

/-- Witness for C3 at logical index 1 of a concrete registry. -/
theorem C3_nativeId_roundtrip_witness :
    exStC3.nDevices = (exStC3.cuDevices.length : Int) ∧
    (0 : Int) ≤ 1 ∧ (1 : Int) < exStC3.nDevices ∧
    ∃ n j, getDeviceNativeId exStC3 1 = some n ∧
      getDeviceIdFromNativeId exStC3 n = some j ∧
      getDeviceNativeId exStC3 j = some n :=
  ⟨by decide, by decide, by decide,
   C3_nativeId_roundtrip exStC3 1 (by decide) (by decide) (by decide)⟩

/-! ### C4: throughput score of every enumerated device -/

/-- The fallback scan never touches the descriptor list, the device count,
or the latch; a normal return carries the saved previous index. -/
theorem fallbackLoop_ret_inv (env : Env) (numDevices old device : Int)
    (err : CudaError) (st : DeviceManager) (v : Int) (st2 : DeviceManager)
    (h : fallbackLoop env numDevices old device err st = SetDevResult.ret v st2) :
    st2.cuDevices = st.cuDevices ∧ st2.nDevices = st.nDevices ∧
      st2.first = st.first ∧ v = old := by
  rw [fallbackLoop] at h
  dsimp only at h
  split at h
  · split at h
    · exact SetDevResult.noConfusion h
    · split at h
      · split at h
        · exact SetDevResult.noConfusion h
        · split at h
          · have hrec := fallbackLoop_ret_inv env numDevices old (device + 1) _ _ v st2 h
            simpa using hrec
          · exact SetDevResult.noConfusion h
      · exact SetDevResult.noConfusion h
  · split at h
    · cases h
      exact ⟨rfl, rfl, rfl, rfl⟩
    · exact SetDevResult.noConfusion h
termination_by (numDevices - device).toNat
decreasing_by
  omega

/-- A normal return of `setActiveDevice` never changes the descriptor list
or the device count. -/
theorem setActiveDevice_ret_inv (env : Env) (st : DeviceManager)
    (device nId : Int) (v : Int) (st2 : DeviceManager)
    (h : setActiveDevice env st device nId = SetDevResult.ret v st2) :
    st2.cuDevices = st.cuDevices ∧ st2.nDevices = st.nDevices := by
  simp only [setActiveDevice] at h
  split at h
  · cases h
    exact ⟨rfl, rfl⟩
  · split at h
    · exact SetDevResult.noConfusion h
    · split at h
      · rcases hstream : st.streams device with _ | _ <;> rw [hstream] at h <;>
          simp only [Bool.false_eq_true, if_false, if_true, ite_false, ite_true] at h
        · split at h
          · cases h
            exact ⟨rfl, rfl⟩
          · split at h
            · exact SetDevResult.noConfusion h
            · have hrec := fallbackLoop_ret_inv env _ _ device _ _ v st2 h
              exact ⟨hrec.1, hrec.2.1⟩
        · cases h
          exact ⟨rfl, rfl⟩
      · exact SetDevResult.noConfusion h

theorem mem_ctorDevices_finish {w : Bool} {r : SetDevResult} {d : CudaDevice}
    (hd : d ∈ ctorDevices (finishCtor w r)) :
    ∃ v st1, r = SetDevResult.ret v st1 ∧ d ∈ st1.cuDevices := by
  rcases r with ⟨v, st1⟩ | ⟨e, s⟩ | _
  · exact ⟨v, st1, rfl, hd⟩
  · simp [finishCtor, ctorDevices] at hd
  · simp [finishCtor, ctorDevices] at hd

theorem mem_sortDevices {d : CudaDevice} (mode : SortMode) (l : List CudaDevice) :
    d ∈ sortDevices mode l ↔ d ∈ l := by
  cases mode <;> simp only [sortDevices] <;> exact (List.mergeSort_perm l _).mem_iff

/-- C4: every device held by a constructed registry has
`flops = multiProcessorCount * compute2cores(major, minor) * clockRate`;
the per-core table maps compute version 6.1 to 64; and every
`(major, minor)` pair absent from the table scores 0. -/
theorem C4_throughput_score :
    (∀ (env : Env) (mode : SortMode) (d : CudaDevice),
        d ∈ ctorDevices (mkDeviceManager env mode) →
        d.flops = d.prop.multiProcessorCount *
          compute2cores d.prop.major d.prop.minor * d.prop.clockRate)
    ∧ compute2cores 6 1 = 64
    ∧ (∀ major minor : Int,
        gpusTable.find? (fun g => g.1 == major * 16 + minor) = Option.none →
        compute2cores major minor = 0) := by
  refine ⟨?_, by decide, ?_⟩
  · intro env mode d hd
    have hmem : d ∈ enumerateDevices env := by
      simp only [mkDeviceManager] at hd
      split at hd
      · simp [ctorDevices] at hd
      · split at hd
        · obtain ⟨v, st1, hres, hd1⟩ := mem_ctorDevices_finish hd
          have hinv := setActiveDevice_ret_inv _ _ _ _ _ _ hres
          rw [hinv.1] at hd1
          exact (mem_sortDevices mode _).mp hd1
        · split at hd
          · obtain ⟨v, st1, hres, hd1⟩ := mem_ctorDevices_finish hd
            have hinv := setActiveDevice_ret_inv _ _ _ _ _ _ hres
            rw [hinv.1] at hd1
            exact (mem_sortDevices mode _).mp hd1
          · obtain ⟨v, st1, hres, hd1⟩ := mem_ctorDevices_finish hd
            have hinv := setActiveDevice_ret_inv _ _ _ _ _ _ hres
            rw [hinv.1] at hd1
            exact (mem_sortDevices mode _).mp hd1
    obtain ⟨i, _, rfl⟩ := List.mem_map.mp hmem
    rfl
  · intro major minor hfind
    rw [compute2cores, hfind]

/-- Witness for C4: the single enumerated device of a concrete registry. -/
theorem C4_throughput_score_witness :
    exDevC4 ∈ ctorDevices (mkDeviceManager exEnvC4 SortMode.compute) ∧
    exDevC4.flops = exDevC4.prop.multiProcessorCount *
      compute2cores exDevC4.prop.major exDevC4.prop.minor * exDevC4.prop.clockRate ∧
    gpusTable.find? (fun g => g.1 == 7 * 16 + 0) = Option.none ∧
    compute2cores 7 0 = 0 := by
  have hmem : exDevC4 ∈ ctorDevices (mkDeviceManager exEnvC4 SortMode.compute) := by
    simp [mkDeviceManager, exEnvC4, enumerateDevices, sortDevices, nativeIdAt,
      setActiveDevice, finishCtor, ctorDevices, exDevC4, compute2cores, gpusTable,
      List.range_succ]
  refine ⟨hmem, C4_throughput_score.1 exEnvC4 SortMode.compute exDevC4 hmem,
    by decide, C4_throughput_score.2.2 7 0 (by decide)⟩

/-! ### C2: the off-by-one range check of setActiveDevice -/

/-- C2 (code bug, evaluated at the failing input `device = deviceCount()`):
the range check is `device > numDevices`, so `device = 2` on a two-device
registry passes it; the native-id lookup then returns the `-1` sentinel,
`cudaSetDevice(-1)` fails, and the call throws instead of returning the
`-1` failure value the spec requires for every index outside
`[0, deviceCount())`. -/
theorem C2_range_check_off_by_one :
    (exStC2.cuDevices.length : Int) = 2 ∧
    getDeviceNativeId exStC2 2 = some (-1) ∧
    setActiveDevice exEnvC2 exStC2 2 (-1) =
      SetDevResult.thrown (CudaError.other 101) exStC2 :=
  ⟨rfl, rfl, rfl⟩

/-! ### C8: out-of-range deviceProperties fallback -/

/-- C8 counterexample: at the negative index `-1` the lookup passes the
`device < size` check and reads `cuDevices[-1]` out of bounds (modelled
`none`) — it does not return the index-0 descriptor, which is `some`. -/
theorem C8_counterexample :
    getDeviceProp exStC8 (-1) = Option.none ∧
    getDeviceProp exStC8 0 = some ⟨"g", 6, 1, 1024, 1, 1⟩ :=
  ⟨rfl, rfl⟩

/-- C8 amended: for every index `d ≥ deviceCount()` (negative indices read
out of bounds instead), `getDeviceProp` returns the index-0 descriptor. -/
theorem C8_deviceProp_fallback (st : DeviceManager) (d : Int)
    (hlen : 0 < st.cuDevices.length)
    (hge : (st.cuDevices.length : Int) ≤ d) :
    getDeviceProp st d = getDeviceProp st 0 ∧ (getDeviceProp st 0).isSome := by
  have h2 : getDeviceProp st 0 = (st.cuDevices.get? 0).map (fun x => x.prop) := by
    rw [getDeviceProp, if_pos (by exact_mod_cast hlen), if_pos le_rfl]
    rfl
  have h1 : getDeviceProp st d = (st.cuDevices.get? 0).map (fun x => x.prop) := by
    rw [getDeviceProp, if_neg (by omega)]
  constructor
  · rw [h1, h2]
  · rw [h2, List.get?_eq_get hlen]
    rfl

/-- Witness for C8's amended statement on a concrete registry, at `d = 5`. -/
theorem C8_deviceProp_fallback_witness :
    0 < exStC8.cuDevices.length ∧ (exStC8.cuDevices.length : Int) ≤ 5 ∧
    (getDeviceProp exStC8 5 = getDeviceProp exStC8 0 ∧
      (getDeviceProp exStC8 0).isSome) :=
  ⟨by decide, by decide, C8_deviceProp_fallback exStC8 5 (by decide) (by decide)⟩

/-! ### C7: the per-device info line -/

/-- Rounding up to whole megabytes: the source's
`m / (1024*1024) + !!(m % (1024*1024))` is ceiling division. -/
theorem ceil_mb (m : Nat) :
    m / (1024 * 1024) + (if m % (1024 * 1024) == 0 then 0 else 1) =
      (m + (1024 * 1024 - 1)) / (1024 * 1024) := by
  by_cases hz : m % (1024 * 1024) = 0
  · rw [if_pos (beq_iff_eq.mpr hz)]
    omega
  · rw [if_neg (fun hc => hz (beq_iff_eq.mp hc))]
    omega

/-- C7: for a valid logical index, the info line is the index (bracketed
when active, dashed otherwise), the display name, the total memory rounded
up to whole megabytes, and the compute version as
`CUDA Compute major.minor`, in one newline-terminated line. -/
theorem C7_device_info (st : DeviceManager) (i : Int) (d : CudaDevice)
    (h0 : 0 ≤ i) (hd : st.cuDevices.get? i.toNat = some d) :
    getDeviceInfo st i = some (
      (if st.activeDev = i then "[" ++ toString i ++ "]"
       else "-" ++ toString i ++ "-") ++ " " ++
      d.prop.name ++ ", " ++
      (toString ((d.prop.totalGlobalMem + (1024 * 1024 - 1)) / (1024 * 1024)) ++
        " MB") ++ ", " ++
      ("CUDA Compute " ++ toString d.prop.major ++ "." ++
        toString d.prop.minor) ++ "\n") := by
  obtain ⟨hlt, -⟩ := List.get?_eq_some.mp hd
  have hprop : getDeviceProp st i = some d.prop := by
    rw [getDeviceProp, if_pos (by omega), if_pos h0, hd]
    rfl
  by_cases hact : st.activeDev = i
  · have hb : (st.activeDev == i) = true := beq_iff_eq.mpr hact
    simp only [getDeviceInfo, hprop, Option.map_some', hb, if_pos hact, ceil_mb,
      ite_true]
  · have hb : (st.activeDev == i) = false := beq_eq_false_iff_ne.mpr hact
    simp only [getDeviceInfo, hprop, Option.map_some', hb, if_neg hact, ceil_mb,
      ite_false]
    rfl

/-- Witness for C7: the active 6.1 device formats with a bracketed index,
memory rounded up to 3 MB, and the text `CUDA Compute 6.1`. -/
theorem C7_device_info_witness :
    getDeviceInfo exStC7 0 = some "[0] GeForce, 3 MB, CUDA Compute 6.1\n" := by
  rw [C7_device_info exStC7 0 ⟨⟨"GeForce", 6, 1, 2097153, 20, 100⟩, 128000, 0⟩
    (by decide) rfl]
  rfl

/-! ### Path lemmas for setActiveDevice -/

/-- Success path of `setActiveDevice` when the queue slot is still empty:
the context switch succeeds, queue creation succeeds, the call returns the
previous index with the slot filled and the active index updated.  Note
the latch field is untouched. -/
theorem setActiveDevice_success (env : Env) (st : DeviceManager)
    (device nId nid : Int)
    (hrange : device ≤ (st.cuDevices.length : Int))
    (hres : (if (nId == -1) = true then getDeviceNativeId st device
      else some nId) = some nid)
    (hsd : env.setDevice nid = CudaError.success)
    (hstream : st.streams device = false)
    (hsc : env.streamCreate device = CudaError.success) :
    setActiveDevice env st device nId = SetDevResult.ret st.activeDev
      { st with
        streams := (fun j => if j == device then true else st.streams j)
        activeDev := device } := by
  rw [setActiveDevice, if_neg (by omega)]
  dsimp only
  rw [hres]
  dsimp only
  rw [hsd]
  dsimp only
  rw [hstream]
  simp [hsc]

/-- Re-activating a device whose queue already exists: no queue creation
happens and the call returns the previous index with only the active index
updated. -/
theorem setActiveDevice_existing (env : Env) (st : DeviceManager)
    (device nId nid : Int)
    (hrange : device ≤ (st.cuDevices.length : Int))
    (hres : (if (nId == -1) = true then getDeviceNativeId st device
      else some nId) = some nid)
    (hsd : env.setDevice nid = CudaError.success)
    (hstream : st.streams device = true) :
    setActiveDevice env st device nId =
      SetDevResult.ret st.activeDev { st with activeDev := device } := by
  rw [setActiveDevice, if_neg (by omega)]
  dsimp only
  rw [hres]
  dsimp only
  rw [hsd]
  dsimp only
  rw [hstream]
  have hfun : (fun j => decide (j = device) || st.streams j) = st.streams := by
    funext j
    by_cases hj : j = device
    · subst hj
      simp [hstream]
    · simp [hj]
  simp [hfun]

/-- Steady-state failure path: with the latch cleared, a queue-creation
failure is thrown with the active index already set to the requested
device (no fallback scanning, no rollback). -/
theorem setActiveDevice_steady_throw (env : Env) (st : DeviceManager)
    (device nid : Int) (e : CudaError)
    (hrange : device ≤ (st.cuDevices.length : Int))
    (hnid : getDeviceNativeId st device = some nid)
    (hsd : env.setDevice nid = CudaError.success)
    (hstream : st.streams device = false)
    (hsc : env.streamCreate device = e)
    (he : e ≠ CudaError.success)
    (hfirst : st.first = false) :
    setActiveDevice env st device (-1) =
      SetDevResult.thrown e { st with activeDev := device } := by
  rw [setActiveDevice, if_neg (by omega)]
  dsimp only
  have hres : (if (((-1 : Int)) == -1) = true then getDeviceNativeId st device
      else some (-1)) = some nid := by
    simpa using hnid
  rw [hres]
  dsimp only
  rw [hsd]
  dsimp only
  rw [hstream]
  have hdec : decide (e = CudaError.success) = false := decide_eq_false he
  have hfun : (fun j => !decide (j = device) && st.streams j) = st.streams := by
    funext j
    by_cases hj : j = device
    · subst hj
      simp [hstream]
    · simp [hj]
  simp only [Bool.false_eq_true, if_false, ite_false, hsc, if_neg he, hfirst,
    Bool.not_false, if_true, ite_true, Bool.not_true, Bool.false_or, Bool.true_and,
    Bool.false_and, Bool.or_false, hdec]
  simp [hfun]

/-! ### C9: no rollback of the active index on queue-creation failure -/

/-- C9: in the steady state (latch cleared), when a valid device's queue
creation fails, the error is raised only after `activeDev` was already set
to the requested device — afterwards the registry reports the requested
device, not the previous one, as active. -/
theorem C9_no_rollback_on_queue_failure (env : Env) (st : DeviceManager)
    (device : Int) (e : CudaError)
    (h0 : 0 ≤ device) (hdn : device < (st.cuDevices.length : Int))
    (hfirst : st.first = false)
    (hsd : ∀ n, env.setDevice n = CudaError.success)
    (hstream : st.streams device = false)
    (hsc : env.streamCreate device = e)
    (he : e ≠ CudaError.success) :
    setActiveDevice env st device (-1) =
      SetDevResult.thrown e { st with activeDev := device } := by
  have hil : device.toNat < st.cuDevices.length := by omega
  have hnid : getDeviceNativeId st device =
      some (st.cuDevices.get ⟨device.toNat, hil⟩).nativeId := by
    rw [getDeviceNativeId, if_pos (by omega), if_pos h0, List.get?_eq_get hil]
    rfl
  exact setActiveDevice_steady_throw env st device _ e (by omega) hnid (hsd _)
    hstream hsc he hfirst

/-- Witness for C9: activating device 1 fails and leaves device 1, not
device 0, recorded as active. -/
theorem C9_no_rollback_witness :
    setActiveDevice exEnvC9 exStC9 1 (-1) =
      SetDevResult.thrown (CudaError.other 5) { exStC9 with activeDev := 1 } :=
  C9_no_rollback_on_queue_failure exEnvC9 exStC9 1 (CudaError.other 5)
    (by decide) (by decide) rfl (fun _ => rfl) rfl rfl (by decide)

/-! ### C1: when the fallback scan can run -/

/-- C1 (amended): the steady (no-fallback) state is entered by the first
handled queue-creation failure, not by the first successful activation:
(a) a successful activation returns normally and leaves every field but
the queue slot and active index — in particular the latch — unchanged;
(b) once the latch is cleared, a queue-creation failure of any kind is
thrown immediately, with no fallback scanning. -/
theorem C1_bootstrap_latch (env : Env) (st : DeviceManager) (device : Int)
    (e : CudaError)
    (h0 : 0 ≤ device) (hdn : device < (st.cuDevices.length : Int))
    (hstream : st.streams device = false)
    (hsd : ∀ n, env.setDevice n = CudaError.success) :
    (env.streamCreate device = CudaError.success →
      setActiveDevice env st device (-1) = SetDevResult.ret st.activeDev
        { st with
          streams := (fun j => if j == device then true else st.streams j)
          activeDev := device })
    ∧ (st.first = false → env.streamCreate device = e → e ≠ CudaError.success →
      setActiveDevice env st device (-1) =
        SetDevResult.thrown e { st with activeDev := device }) := by
  have hil : device.toNat < st.cuDevices.length := by omega
  have hnid : getDeviceNativeId st device =
      some (st.cuDevices.get ⟨device.toNat, hil⟩).nativeId := by
    rw [getDeviceNativeId, if_pos (by omega), if_pos h0, List.get?_eq_get hil]
    rfl
  constructor
  · intro hsc
    exact setActiveDevice_success env st device (-1) _ (by omega)
      (by simpa using hnid) (hsd _) hstream hsc
  · intro hfirst hsc he
    exact setActiveDevice_steady_throw env st device _ e (by omega) hnid (hsd _)
      hstream hsc he hfirst

/-- Witness for C1's amended statement: a successful activation (latch
untouched), and an immediate throw in the cleared-latch state. -/
theorem C1_bootstrap_latch_witness :
    (setActiveDevice exEnvC1w exStC1a 1 (-1) = SetDevResult.ret 0
      { exStC1a with
        streams := (fun j => if j == 1 then true else exStC1a.streams j)
        activeDev := 1 })
    ∧ (setActiveDevice exEnvC9 exStC9 1 (-1) =
        SetDevResult.thrown (CudaError.other 5) { exStC9 with activeDev := 1 }) :=
  ⟨(C1_bootstrap_latch exEnvC1w exStC1a 1 CudaError.success (by decide) (by decide)
      rfl (fun _ => rfl)).1 rfl,
   (C1_bootstrap_latch exEnvC9 exStC9 1 (CudaError.other 5) (by decide) (by decide)
      rfl (fun _ => rfl)).2 rfl rfl (by decide)⟩

theorem exStC1_ctor :
    mkDeviceManager exEnvC1 SortMode.compute = CtorResult.ok exStC1 false := by
  have hpair : List.Pairwise (fun a b => (! card_compare_compute b a) = true)
      (enumerateDevices exEnvC1) := by decide
  have hsort : sortDevices SortMode.compute (enumerateDevices exEnvC1) =
      enumerateDevices exEnvC1 := by
    simpa [sortDevices] using List.mergeSort_of_sorted hpair
  rw [mkDeviceManager, hsort]
  rfl

theorem exStC1_run :
    sdRetValue (setActiveDevice exEnvC1 exStC1 1 (-1)) = some 0 ∧
    sdActive (setActiveDevice exEnvC1 exStC1 1 (-1)) = some 2 := by
  constructor <;>
    simp [setActiveDevice, fallbackLoop, exStC1, exEnvC1, enumerateDevices,
      getDeviceNativeId, List.range_succ, sdRetValue, sdActive]

/-- C1 counterexample: construction succeeds and activates device 0 — the
first successful activation — yet the latch is still set afterwards, so
the next queue-creation failure (activating device 1, which fails with
the "device unavailable" error) is not surfaced: the call returns
normally, having fallback-scanned to device 2. -/
theorem C1_counterexample :
    mkDeviceManager exEnvC1 SortMode.compute = CtorResult.ok exStC1 false ∧
    exStC1.activeDev = 0 ∧ exStC1.first = true ∧
    exEnvC1.streamCreate 1 = CudaError.devicesUnavailable ∧
    exStC1.streams 1 = false ∧
    sdRetValue (setActiveDevice exEnvC1 exStC1 1 (-1)) = some 0 ∧
    sdActive (setActiveDevice exEnvC1 exStC1 1 (-1)) = some 2 :=
  ⟨exStC1_ctor, rfl, rfl, rfl, rfl, exStC1_run.1, exStC1_run.2⟩

/-! ### C6: out-of-range environment override -/

theorem sortDevices_length (mode : SortMode) (l : List CudaDevice) :
    (sortDevices mode l).length = l.length := by
  cases mode <;> simp only [sortDevices] <;> exact (List.mergeSort_perm l _).length_eq

theorem enumerateDevices_length (env : Env) :
    (enumerateDevices env).length = env.deviceCount := by
  simp [enumerateDevices]

/-- Every descriptor the constructor ranks carries the nonnegative native
id assigned at enumeration. -/
theorem sortDevices_nativeId_nonneg (env : Env) (mode : SortMode) {k : Nat}
    {d : CudaDevice}
    (h : (sortDevices mode (enumerateDevices env)).get? k = some d) :
    0 ≤ d.nativeId := by
  have hm : d ∈ sortDevices mode (enumerateDevices env) := List.get?_mem h
  rw [mem_sortDevices, enumerateDevices] at hm
  obtain ⟨i, -, rfl⟩ := List.mem_map.mp hm
  exact Int.natCast_nonneg i

/-- Evaluating `getDeviceNativeId` at a valid index returns that descriptor's native
id. -/
theorem getDeviceNativeId_valid (st : DeviceManager) (i : Int) (h0 : 0 ≤ i)
    (hil : i.toNat < st.cuDevices.length) :
    getDeviceNativeId st i = some (st.cuDevices.get ⟨i.toNat, hil⟩).nativeId := by
  rw [getDeviceNativeId, if_pos (by omega), if_pos h0, List.get?_eq_get hil]
  rfl

/-- Activating logical index 0 from the constructor's pre-activation state
succeeds when the platform calls succeed: the slot is filled and device 0
stays active. -/
theorem activate0_success (env : Env) (l : List CudaDevice) (nD : Int)
    (hlen0 : 0 < l.length)
    (hnn : ∀ (k : Nat) (d : CudaDevice), l.get? k = some d → 0 ≤ d.nativeId)
    (hsd : ∀ n, env.setDevice n = CudaError.success)
    (hsc : env.streamCreate 0 = CudaError.success) :
    setActiveDevice env
      { cuDevices := l, activeDev := 0, nDevices := nD,
        streams := fun _ => false, first := true } 0 (nativeIdAt l 0) =
    SetDevResult.ret 0
      { cuDevices := l, activeDev := 0, nDevices := nD,
        streams := (fun j => if j == 0 then true else false), first := true } := by
  have hd0 : l.get? 0 = some (l.get ⟨0, hlen0⟩) := List.get?_eq_get hlen0
  have hnat : nativeIdAt l 0 = (l.get ⟨0, hlen0⟩).nativeId := by
    rw [nativeIdAt, hd0]
    rfl
  have hres : (if ((nativeIdAt l 0) == -1) = true
      then getDeviceNativeId
        { cuDevices := l, activeDev := 0, nDevices := nD,
          streams := fun _ => false, first := true } 0
      else some (nativeIdAt l 0)) = some (nativeIdAt l 0) := by
    have hne : ((nativeIdAt l 0) == -1) = false := by
      rw [hnat]
      exact beq_eq_false_iff_ne.mpr (by have := hnn 0 _ hd0; omega)
    rw [hne, if_neg Bool.false_ne_true]
  have hcall := setActiveDevice_success env
    { cuDevices := l, activeDev := 0, nDevices := nD,
      streams := fun _ => false, first := true } 0 (nativeIdAt l 0)
    (nativeIdAt l 0) (by dsimp only; omega) hres (hsd _) rfl hsc
  rw [hcall]

/-- C6: a present but out-of-range (or unparseable) default-device
override makes construction take the warning branch, ignore the override,
and activate logical device 0, so the constructed registry reports
`activeDev = 0` (under queue creation for device 0 succeeding — otherwise
the documented fallback scan runs). -/
theorem C6_env_override_out_of_range (env : Env) (mode : SortMode)
    (parsed : Option Int)
    (henv : env.deviceEnvVar = some parsed)
    (hoor : parsed.getD (-1) < 0 ∨ (env.deviceCount : Int) ≤ parsed.getD (-1))
    (hn : 0 < env.deviceCount)
    (hsd : ∀ n, env.setDevice n = CudaError.success)
    (hsc : env.streamCreate 0 = CudaError.success) :
    ∃ st, mkDeviceManager env mode = CtorResult.ok st true ∧
      st.activeDev = 0 := by
  refine ⟨{ cuDevices := sortDevices mode (enumerateDevices env)
            activeDev := 0
            nDevices := (env.deviceCount : Int)
            streams := (fun j => if j == 0 then true else false)
            first := true }, ?_, rfl⟩
  have hlen0 : 0 < (sortDevices mode (enumerateDevices env)).length := by
    rw [sortDevices_length, enumerateDevices_length]
    omega
  have hact := activate0_success env (sortDevices mode (enumerateDevices env))
    (env.deviceCount : Int) hlen0
    (fun k d hk => sortDevices_nativeId_nonneg env mode hk) hsd hsc
  rw [mkDeviceManager]
  dsimp only
  rw [if_neg (by omega), henv]
  dsimp only
  rw [if_pos hoor, hact]
  rfl

/-- Witness for C6 at a concrete environment whose override equals
`deviceCount`. -/
theorem C6_env_override_witness :
    ∃ st, mkDeviceManager exEnvC6 SortMode.compute = CtorResult.ok st true ∧
      st.activeDev = 0 :=
  C6_env_override_out_of_range exEnvC6 SortMode.compute (some 1) rfl
    (by decide) (by decide) (fun _ => rfl) rfl

/-! ### C10: getStream restores the active device -/

/-- C10: for a valid index, `getStream` returns the (created) queue and
leaves the active device exactly as before the call — when the queue does
not exist yet, it activates `device` to create it and then switches back
(assuming the platform calls succeed and the current active device's own
queue exists). -/
theorem C10_getStream_restores_active (env : Env) (st : DeviceManager)
    (device : Int)
    (h0 : 0 ≤ device) (hdn : device < (st.cuDevices.length : Int))
    (ha0 : 0 ≤ st.activeDev) (han : st.activeDev < (st.cuDevices.length : Int))
    (hact : st.streams st.activeDev = true)
    (hsd : ∀ n, env.setDevice n = CudaError.success)
    (hsc : env.streamCreate device = CudaError.success) :
    ∃ st2, getStream env st device = StreamResult.ret true st2 ∧
      st2.activeDev = st.activeDev := by
  have hil : device.toNat < st.cuDevices.length := by omega
  have hnid := getDeviceNativeId_valid st device h0 hil
  rw [getStream]
  dsimp only
  by_cases hs : st.streams device = true
  · refine ⟨st, ?_, rfl⟩
    rw [hs]
    rfl
  · have hsb : st.streams device = false := Bool.eq_false_iff.mpr hs
    have hcall1 := setActiveDevice_success env st device (-1) _ (by omega)
      (by simpa using hnid) (hsd _) hsb hsc
    have hail : st.activeDev.toNat <
        ({ st with
            streams := (fun j => if j == device then true else st.streams j)
            activeDev := device } : DeviceManager).cuDevices.length := by
      dsimp only
      omega
    have hnidA := getDeviceNativeId_valid
      { st with
        streams := (fun j => if j == device then true else st.streams j)
        activeDev := device } st.activeDev ha0 hail
    have hstr1A : ({ st with
        streams := (fun j => if j == device then true else st.streams j)
        activeDev := device } : DeviceManager).streams st.activeDev = true := by
      dsimp only
      by_cases hj : (st.activeDev == device) = true
      · rw [if_pos hj]
      · rw [if_neg hj, hact]
    have hcall2 := setActiveDevice_existing env
      { st with
        streams := (fun j => if j == device then true else st.streams j)
        activeDev := device } st.activeDev (-1) _ (by dsimp only; omega)
      (by simpa using hnidA) (hsd _) hstr1A
    refine ⟨{ st with
      streams := (fun j => if j == device then true else st.streams j) }, ?_, rfl⟩
    simp only [hsb, Bool.not_false, hcall1, hcall2, ite_true, if_true,
      beq_self_eq_true]

/-- Witness for C10: asking for device 1's stream creates it and leaves
device 0 active. -/
theorem C10_getStream_restores_active_witness :
    ∃ st2, getStream exEnvC1w exStC10 1 = StreamResult.ret true st2 ∧
      st2.activeDev = exStC10.activeDev :=
  C10_getStream_restores_active exEnvC1w exStC10 1 (by decide) (by decide)
    (by decide) (by decide) rfl (fun _ => rfl) rfl

end cuda
